import Mathlib

/-!
Shallow embedding of the long-poll broadcaster in
src/server/long-pollers/models.js (class LongPollers).

Modelling conventions:

* A client response handle (the Express res object) is identified by a
  natural number.  Its observable interactions — res.json(value),
  res.on/removeListener for the finish and close events — are modelled as
  emitted events and as explicit listener lists carried next to the class
  state.  The payload type is an arbitrary α (opaque in the source).
* Date.now() is an external input: broadcast takes the clock reading as an
  argument.  res.json may throw when the underlying sink is closed; which
  handles fail is an external oracle fails : Nat → Bool.  Inside broadcast
  the source wraps res.json in try/catch and logs the error, which we model
  as an errorLogged event.
* req.query.lastMessageTime is a query-string value; the source coerces it
  with Number(...) || 0.  We abstract the JS value space as QueryVal:
  missing (undefined), invalid (a string whose Number is NaN), or num n
  (a string denoting the nonnegative integer n, the shape Date.now
  timestamps have).
-/

/-- Record stored in this._lastMessage: the object literal
built in broadcast, with fields message and time. -/
structure LastMessage (α : Type) where
  message : α
  time : Nat
deriving DecidableEq, Repr

/-- State of one LongPollers instance together with the finish/close
listener registrations living on the parked res objects.  The source class
holds only _responses and _lastMessage; the two listener lists record on
which handles add has registered connectionEnded for the finish and close
events. -/
structure LongPollers (α : Type) where
  _responses : List Nat
  _lastMessage : Option (LastMessage α)
  finishListeners : List Nat
  closeListeners : List Nat
deriving DecidableEq, Repr

/-- Observable effect on a client handle: res.json(payload) succeeding
(payload is this._lastMessage, possibly null), or an exception caught and
logged by the try/catch in broadcast. -/
inductive Event (α : Type) where
  | delivered (handle : Nat) (payload : Option (LastMessage α))
  | errorLogged (handle : Nat)
deriving DecidableEq, Repr

/-- Handle an event is addressed to. -/
def Event.handle {α : Type} : Event α → Nat
  | .delivered h _ => h
  | .errorLogged h => h

/-- Abstraction of the JS value found at req.query.lastMessageTime. -/
inductive QueryVal where
  | missing
  | invalid
  | num (n : Nat)
deriving DecidableEq, Repr

/-- Coercion Number(req.query.lastMessageTime) || 0 from line 44 of the
source: undefined and NaN are falsy and become 0; a numeric string yields
its value (0 stays 0 via the || 0 branch). -/
def parseMessageTime : QueryVal → Nat
  | .missing => 0
  | .invalid => 0
  | .num n => n

namespace LongPollers

variable {α : Type}

/-- Getter lastMessage: returns this._lastMessage. -/
def lastMessage (s : LongPollers α) : Option (LastMessage α) :=
  s._lastMessage

/-- Getter lastMessageTime: this._lastMessage ? this._lastMessage.time : 0. -/
def lastMessageTime (s : LongPollers α) : Nat :=
  match s._lastMessage with
  | none => 0
  | some lm => lm.time

/-- Method broadcast(message): stores a fresh object with the
message and time = Date.now() as this._lastMessage, then loops over
this._responses calling res.json(this._lastMessage) inside try/catch
(failures are logged and the loop continues).  The clock reading now and
the failure oracle fails are external inputs.  Returns the new state and
the per-client events in loop order; note the loop does not touch
this._responses. -/
def broadcast (s : LongPollers α) (message : α) (now : Nat)
    (fails : Nat → Bool) : LongPollers α × List (Event α) :=
  let lm : LastMessage α := ⟨message, now⟩
  ({ s with _lastMessage := some lm },
   s._responses.map fun res =>
     if fails res then Event.errorLogged res else Event.delivered res (some lm))

/-- Handler connectionEnded closed over res in add (lines 54 to 64): it
removes itself from the finish and close listeners of res, then looks up
res in this._responses with indexOf and splices it out when present —
exactly the removal of the first occurrence, a no-op when absent, which is
List.erase. -/
def connectionEnded (s : LongPollers α) (res : Nat) : LongPollers α :=
  { s with
    finishListeners := s.finishListeners.erase res,
    closeListeners := s.closeListeners.erase res,
    _responses := s._responses.erase res }

/-- Firing of the finish or close event on handle res: the runtime invokes
connectionEnded only while it is registered as a listener for res;
otherwise the event is absorbed. -/
def fireDisconnect (s : LongPollers α) (res : Nat) : LongPollers α :=
  if res ∈ s.finishListeners ∨ res ∈ s.closeListeners then
    connectionEnded s res
  else
    s

/-- Method add(req, res) (the subscribe operation): coerces
req.query.lastMessageTime, compares it with the lastMessageTime getter; on
mismatch it answers res.json(this._lastMessage) at once and returns without
touching state; on match it pushes res onto this._responses and registers
connectionEnded for the finish and close events of res. -/
def add (s : LongPollers α) (q : QueryVal) (res : Nat) :
    LongPollers α × List (Event α) :=
  let queryMessageTime := parseMessageTime q
  if queryMessageTime ≠ s.lastMessageTime then
    (s, [Event.delivered res s._lastMessage])
  else
    ({ s with
        _responses := s._responses ++ [res],
        finishListeners := s.finishListeners ++ [res],
        closeListeners := s.closeListeners ++ [res] }, [])

/-- States reachable from a freshly constructed LongPollers by the three
operations.  Side conditions model the hosting environment: the wall clock
read by Date.now never goes backwards, and the HTTP layer passes each
response object to add at most once, so a subscribing handle is never
currently parked or listened to. -/
inductive Reachable : LongPollers α → Prop where
  | init : Reachable ⟨[], none, [], []⟩
  | broadcast {s : LongPollers α} (msg : α) (now : Nat) (fails : Nat → Bool) :
      Reachable s → s.lastMessageTime ≤ now →
      Reachable (broadcast s msg now fails).1
  | subscribe {s : LongPollers α} (q : QueryVal) (h : Nat) :
      Reachable s → h ∉ s._responses → h ∉ s.finishListeners →
      h ∉ s.closeListeners → Reachable (add s q h).1
  | disconnect {s : LongPollers α} (h : Nat) :
      Reachable s → Reachable (fireDisconnect s h)

/-- Handles addressed by the fan-out loop of broadcast are exactly the pool
entries, in order. -/
theorem broadcast_event_handles (s : LongPollers α) (msg : α) (now : Nat)
    (fails : Nat → Bool) :
    (broadcast s msg now fails).2.map Event.handle = s._responses := by
  simp only [broadcast, List.map_map]
  have hid : (Event.handle ∘ fun res =>
      if fails res then Event.errorLogged res
      else Event.delivered res (some ⟨msg, now⟩) : Nat → Nat) = id := by
    funext r
    by_cases h : fails r <;> simp [Event.handle, h]
  rw [hid, List.map_id]

end LongPollers

namespace LongPollers

variable {α : Type}

/-- Folding connectionEnded over a list of handles acts on the pool like
folding the first-occurrence removal. -/
theorem foldl_connectionEnded_responses (l : List Nat) (s : LongPollers α) :
    (l.foldl connectionEnded s)._responses = l.foldl List.erase s._responses := by
  induction l generalizing s with
  | nil => rfl
  | cons a t ih => simp [List.foldl_cons, ih, connectionEnded]

/-- Erasing every element of a list from itself, one occurrence at a time,
empties it. -/
theorem foldl_erase_self (l : List Nat) : List.foldl List.erase l l = [] := by
  induction l with
  | nil => rfl
  | cons a t ih => rw [List.foldl_cons, List.erase_cons_head]; exact ih

end LongPollers

/-- C2: when the coerced lastMessageTime query value differs from the
current lastMessageTime, add answers the handle synchronously with
this._lastMessage (null when no broadcast has happened) and leaves the
state, in particular the pool, untouched. -/
theorem C2_caught_up_delivery {α : Type} (s : LongPollers α) (q : QueryVal)
    (res : Nat) (hne : parseMessageTime q ≠ s.lastMessageTime) :
    LongPollers.add s q res = (s, [Event.delivered res s._lastMessage]) := by
  simp [LongPollers.add, hne]

/-- C2 witness at a concrete caught-up call. -/
theorem C2_witness :
    parseMessageTime (QueryVal.num 0) ≠
      (⟨[], some ⟨7, 100⟩, [], []⟩ : LongPollers Nat).lastMessageTime ∧
    LongPollers.add (⟨[], some ⟨7, 100⟩, [], []⟩ : LongPollers Nat)
        (QueryVal.num 0) 5 =
      (⟨[], some ⟨7, 100⟩, [], []⟩, [Event.delivered 5 (some ⟨7, 100⟩)]) :=
  ⟨by decide, C2_caught_up_delivery _ _ _ (by decide)⟩

/-- C3: when the coerced query value equals the current lastMessageTime —
including both being 0 before any broadcast — add parks the handle by
pushing it onto this._responses, registers the two disconnect listeners,
and emits nothing during the call. -/
theorem C3_park_and_wait {α : Type} (s : LongPollers α) (q : QueryVal)
    (res : Nat) (heq : parseMessageTime q = s.lastMessageTime) :
    LongPollers.add s q res =
      ({ s with
          _responses := s._responses ++ [res],
          finishListeners := s.finishListeners ++ [res],
          closeListeners := s.closeListeners ++ [res] },
       ([] : List (Event α))) := by
  simp [LongPollers.add, heq]

/-- C3 witness at the pre-broadcast both-zero call. -/
theorem C3_witness :
    parseMessageTime (QueryVal.num 0) =
      (⟨[], none, [], []⟩ : LongPollers Nat).lastMessageTime ∧
    LongPollers.add (⟨[], none, [], []⟩ : LongPollers Nat) (QueryVal.num 0) 5 =
      (⟨[5], none, [5], [5]⟩, []) :=
  ⟨by decide, C3_park_and_wait _ _ _ (by decide)⟩

/-- C5: a missing or non-numeric lastMessageTime query value coerces to 0
and the whole call behaves exactly as a call carrying the value 0; no
error is raised since add is total on QueryVal. -/
theorem C5_malformed_defaults_to_zero {α : Type} (s : LongPollers α)
    (res : Nat) (q : QueryVal)
    (hq : q = QueryVal.missing ∨ q = QueryVal.invalid) :
    parseMessageTime q = 0 ∧
    LongPollers.add s q res = LongPollers.add s (QueryVal.num 0) res := by
  rcases hq with h | h <;> subst h <;> exact ⟨rfl, rfl⟩

/-- C5 witness at a concrete missing query value. -/
theorem C5_witness :
    (QueryVal.missing = QueryVal.missing ∨ QueryVal.missing = QueryVal.invalid) ∧
    (parseMessageTime QueryVal.missing = 0 ∧
      LongPollers.add (⟨[], none, [], []⟩ : LongPollers Nat) QueryVal.missing 5 =
        LongPollers.add (⟨[], none, [], []⟩ : LongPollers Nat) (QueryVal.num 0) 5) :=
  ⟨Or.inl rfl, C5_malformed_defaults_to_zero _ _ _ (Or.inl rfl)⟩

/-- C9: a caught-up add call leaves the whole broadcaster state — pool,
latest message, and both listener lists — exactly as it was, so no
disconnect observers are registered on the handle. -/
theorem C9_caught_up_frame {α : Type} (s : LongPollers α) (q : QueryVal)
    (res : Nat) (hne : parseMessageTime q ≠ s.lastMessageTime) :
    (LongPollers.add s q res).1 = s := by
  simp [LongPollers.add, hne]

/-- C9 witness at a concrete caught-up call. -/
theorem C9_witness :
    parseMessageTime (QueryVal.num 3) ≠
      (⟨[8], some ⟨1, 100⟩, [8], [8]⟩ : LongPollers Nat).lastMessageTime ∧
    (LongPollers.add (⟨[8], some ⟨1, 100⟩, [8], [8]⟩ : LongPollers Nat)
        (QueryVal.num 3) 5).1 = ⟨[8], some ⟨1, 100⟩, [8], [8]⟩ :=
  ⟨by decide, C9_caught_up_frame _ _ _ (by decide)⟩

/-- Occurring at most once in a list means being gone after one
first-occurrence removal. -/
theorem not_mem_erase_self_of_count_le_one {l : List Nat} {a : Nat}
    (h : l.count a ≤ 1) : a ∉ l.erase a := by
  have hs := List.count_erase_self a l
  have h0 : (l.erase a).count a = 0 := by omega
  exact List.count_eq_zero.mp h0

/-- C1 counterexample: from a state with handle 4 parked, broadcast leaves
the pool equal to [4], not empty — the fan-out loop never removes entries,
so the pool is not drained as part of the call. -/
theorem C1_counterexample :
    ((LongPollers.broadcast (⟨[4], none, [4], [4]⟩ : LongPollers Nat) 9 100
        (fun _ => false)).1)._responses = [4] ∧ [4] ≠ ([] : List Nat) :=
  ⟨rfl, by decide⟩

/-- C1 amended: after broadcast(payload) every handle parked beforehand is
addressed exactly once by the fan-out loop (a successful one receives the
payload with the new timestamp), no handle is addressed twice, but the pool
itself is unchanged by the call; it is drained only when the finish/close
handler connectionEnded subsequently runs for each notified handle. -/
theorem C1_broadcast_fanout {α : Type} (s : LongPollers α) (msg : α)
    (now : Nat) (fails : Nat → Bool) (h other : Nat)
    (hnodup : s._responses.Nodup) (hmem : h ∈ s._responses)
    (hok : fails h = false) :
    ((LongPollers.broadcast s msg now fails).2.map Event.handle).count h = 1 ∧
    Event.delivered h (some ⟨msg, now⟩) ∈ (LongPollers.broadcast s msg now fails).2 ∧
    ((LongPollers.broadcast s msg now fails).2.map Event.handle).count other ≤ 1 ∧
    (LongPollers.broadcast s msg now fails).1._responses = s._responses ∧
    (s._responses.foldl LongPollers.connectionEnded
        (LongPollers.broadcast s msg now fails).1)._responses = [] := by
  rw [LongPollers.broadcast_event_handles]
  refine ⟨List.count_eq_one_of_mem hnodup hmem, ?_,
    List.nodup_iff_count_le_one.mp hnodup other, rfl, ?_⟩
  · simp only [LongPollers.broadcast]
    exact List.mem_map.mpr ⟨h, hmem, by simp [hok]⟩
  · rw [LongPollers.foldl_connectionEnded_responses]
    exact LongPollers.foldl_erase_self _

/-- C1 witness for the amended statement at a concrete two-client pool. -/
theorem C1_witness :
    (⟨[1, 2], none, [1, 2], [1, 2]⟩ : LongPollers Nat)._responses.Nodup ∧
    1 ∈ (⟨[1, 2], none, [1, 2], [1, 2]⟩ : LongPollers Nat)._responses ∧
    (fun n : Nat => n == 2) 1 = false ∧
    (((LongPollers.broadcast (⟨[1, 2], none, [1, 2], [1, 2]⟩ : LongPollers Nat)
        9 100 (fun n => n == 2)).2.map Event.handle).count 1 = 1 ∧
    Event.delivered 1 (some ⟨9, 100⟩) ∈
      (LongPollers.broadcast (⟨[1, 2], none, [1, 2], [1, 2]⟩ : LongPollers Nat)
        9 100 (fun n => n == 2)).2 ∧
    (((LongPollers.broadcast (⟨[1, 2], none, [1, 2], [1, 2]⟩ : LongPollers Nat)
        9 100 (fun n => n == 2)).2.map Event.handle).count 7 ≤ 1 ∧
    (LongPollers.broadcast (⟨[1, 2], none, [1, 2], [1, 2]⟩ : LongPollers Nat)
        9 100 (fun n => n == 2)).1._responses =
      (⟨[1, 2], none, [1, 2], [1, 2]⟩ : LongPollers Nat)._responses ∧
    ((⟨[1, 2], none, [1, 2], [1, 2]⟩ : LongPollers Nat)._responses.foldl
        LongPollers.connectionEnded
        (LongPollers.broadcast (⟨[1, 2], none, [1, 2], [1, 2]⟩ : LongPollers Nat)
          9 100 (fun n => n == 2)).1)._responses = [])) :=
  ⟨by decide, by decide, by decide,
    C1_broadcast_fanout _ 9 100 _ 1 7 (by decide) (by decide) (by decide)⟩

/-- C4: a delivery failure inside the broadcast loop is caught and logged
as an event, every non-failing pool entry is still delivered to, the loop
addresses every pool entry in order, and broadcast completes normally with
the new message stored. -/
theorem C4_failure_isolated {α : Type} (s : LongPollers α) (msg : α)
    (now : Nat) (fails : Nat → Bool) (bad good : Nat)
    (hbad : bad ∈ s._responses) (hbf : fails bad = true)
    (hgood : good ∈ s._responses) (hgf : fails good = false) :
    Event.errorLogged bad ∈ (LongPollers.broadcast s msg now fails).2 ∧
    Event.delivered good (some ⟨msg, now⟩) ∈ (LongPollers.broadcast s msg now fails).2 ∧
    (LongPollers.broadcast s msg now fails).2.map Event.handle = s._responses ∧
    (LongPollers.broadcast s msg now fails).1._lastMessage = some ⟨msg, now⟩ := by
  refine ⟨?_, ?_, LongPollers.broadcast_event_handles s msg now fails, rfl⟩
  · simp only [LongPollers.broadcast]
    exact List.mem_map.mpr ⟨bad, hbad, by simp [hbf]⟩
  · simp only [LongPollers.broadcast]
    exact List.mem_map.mpr ⟨good, hgood, by simp [hgf]⟩

/-- C4 witness: handle 2 of the pool [1, 2, 3] fails; handle 3, after it,
is still delivered to. -/
theorem C4_witness :
    2 ∈ (⟨[1, 2, 3], none, [1, 2, 3], [1, 2, 3]⟩ : LongPollers Nat)._responses ∧
    (fun n : Nat => n == 2) 2 = true ∧
    3 ∈ (⟨[1, 2, 3], none, [1, 2, 3], [1, 2, 3]⟩ : LongPollers Nat)._responses ∧
    (fun n : Nat => n == 2) 3 = false ∧
    (Event.errorLogged 2 ∈
      (LongPollers.broadcast (⟨[1, 2, 3], none, [1, 2, 3], [1, 2, 3]⟩ : LongPollers Nat)
        8 200 (fun n => n == 2)).2 ∧
    Event.delivered 3 (some ⟨8, 200⟩) ∈
      (LongPollers.broadcast (⟨[1, 2, 3], none, [1, 2, 3], [1, 2, 3]⟩ : LongPollers Nat)
        8 200 (fun n => n == 2)).2 ∧
    (LongPollers.broadcast (⟨[1, 2, 3], none, [1, 2, 3], [1, 2, 3]⟩ : LongPollers Nat)
        8 200 (fun n => n == 2)).2.map Event.handle =
      (⟨[1, 2, 3], none, [1, 2, 3], [1, 2, 3]⟩ : LongPollers Nat)._responses ∧
    (LongPollers.broadcast (⟨[1, 2, 3], none, [1, 2, 3], [1, 2, 3]⟩ : LongPollers Nat)
        8 200 (fun n => n == 2)).1._lastMessage = some ⟨8, 200⟩) :=
  ⟨by decide, by decide, by decide, by decide,
    C4_failure_isolated _ 8 200 _ 2 3 (by decide) (by decide) (by decide) (by decide)⟩

/-- C6: when a registered finish or close observer of a parked handle
fires, connectionEnded runs: the handle is removed from the pool if
present and both observers are deregistered; a second fire of either event
is absorbed without touching the state, and a later broadcast addresses no
event to that handle. -/
theorem C6_disconnect_cleanup {α : Type} (s : LongPollers α) (h : Nat)
    (msg : α) (now : Nat) (fails : Nat → Bool)
    (hreg : h ∈ s.finishListeners ∨ h ∈ s.closeListeners)
    (hc1 : s._responses.count h ≤ 1) (hc2 : s.finishListeners.count h ≤ 1)
    (hc3 : s.closeListeners.count h ≤ 1) :
    LongPollers.fireDisconnect s h = LongPollers.connectionEnded s h ∧
    h ∉ (LongPollers.connectionEnded s h)._responses ∧
    h ∉ (LongPollers.connectionEnded s h).finishListeners ∧
    h ∉ (LongPollers.connectionEnded s h).closeListeners ∧
    LongPollers.fireDisconnect (LongPollers.connectionEnded s h) h =
      LongPollers.connectionEnded s h ∧
    h ∉ ((LongPollers.broadcast (LongPollers.connectionEnded s h) msg now
        fails).2.map Event.handle) := by
  have hp : h ∉ (LongPollers.connectionEnded s h)._responses :=
    not_mem_erase_self_of_count_le_one hc1
  have hf : h ∉ (LongPollers.connectionEnded s h).finishListeners :=
    not_mem_erase_self_of_count_le_one hc2
  have hc : h ∉ (LongPollers.connectionEnded s h).closeListeners :=
    not_mem_erase_self_of_count_le_one hc3
  refine ⟨?_, hp, hf, hc, ?_, ?_⟩
  · unfold LongPollers.fireDisconnect
    rw [if_pos hreg]
  · unfold LongPollers.fireDisconnect
    rw [if_neg]
    rintro (hcontra | hcontra)
    · exact hf hcontra
    · exact hc hcontra
  · rw [LongPollers.broadcast_event_handles]
    exact hp

/-- C6 witness: the parked handle 3 disconnects before any broadcast. -/
theorem C6_witness :
    (3 ∈ (⟨[3], none, [3], [3]⟩ : LongPollers Nat).finishListeners ∨
      3 ∈ (⟨[3], none, [3], [3]⟩ : LongPollers Nat).closeListeners) ∧
    (⟨[3], none, [3], [3]⟩ : LongPollers Nat)._responses.count 3 ≤ 1 ∧
    (⟨[3], none, [3], [3]⟩ : LongPollers Nat).finishListeners.count 3 ≤ 1 ∧
    (⟨[3], none, [3], [3]⟩ : LongPollers Nat).closeListeners.count 3 ≤ 1 ∧
    (LongPollers.fireDisconnect (⟨[3], none, [3], [3]⟩ : LongPollers Nat) 3 =
      LongPollers.connectionEnded (⟨[3], none, [3], [3]⟩ : LongPollers Nat) 3 ∧
    3 ∉ (LongPollers.connectionEnded (⟨[3], none, [3], [3]⟩ : LongPollers Nat) 3)._responses ∧
    3 ∉ (LongPollers.connectionEnded (⟨[3], none, [3], [3]⟩ : LongPollers Nat) 3).finishListeners ∧
    3 ∉ (LongPollers.connectionEnded (⟨[3], none, [3], [3]⟩ : LongPollers Nat) 3).closeListeners ∧
    LongPollers.fireDisconnect
        (LongPollers.connectionEnded (⟨[3], none, [3], [3]⟩ : LongPollers Nat) 3) 3 =
      LongPollers.connectionEnded (⟨[3], none, [3], [3]⟩ : LongPollers Nat) 3 ∧
    3 ∉ ((LongPollers.broadcast
        (LongPollers.connectionEnded (⟨[3], none, [3], [3]⟩ : LongPollers Nat) 3)
        6 300 (fun _ => false)).2.map Event.handle)) :=
  ⟨Or.inl (by decide), by decide, by decide, by decide,
    C6_disconnect_cleanup _ 3 6 300 _ (Or.inl (by decide)) (by decide) (by decide) (by decide)⟩

/-- C7: in every state reachable by broadcast, subscribe and disconnect
operations, the pool holds each handle at most once. -/
theorem C7_pool_nodup {α : Type} (s : LongPollers α)
    (hs : LongPollers.Reachable s) : s._responses.Nodup := by
  induction hs with
  | init => exact List.nodup_nil
  | broadcast msg now fails hr hle ih => exact ih
  | @subscribe t q h hr hp hf hc ih =>
      by_cases hq : parseMessageTime q ≠ LongPollers.lastMessageTime t
      · simpa [LongPollers.add, hq] using ih
      · simp only [LongPollers.add, hq, if_false, ite_not, if_neg]
        rw [List.nodup_append]
        exact ⟨ih, List.nodup_singleton h, by simp [List.disjoint_singleton, hp]⟩
  | disconnect h hr ih =>
      unfold LongPollers.fireDisconnect
      split
      · exact ih.erase h
      · exact ih

/-- C7 witness: the state reached by parking handle 3 from the fresh state
is reachable and its pool has no duplicate. -/
theorem C7_witness :
    LongPollers.Reachable
      ((LongPollers.add (⟨[], none, [], []⟩ : LongPollers Nat) (QueryVal.num 0) 3).1) ∧
    ((LongPollers.add (⟨[], none, [], []⟩ : LongPollers Nat)
        (QueryVal.num 0) 3).1)._responses.Nodup :=
  ⟨LongPollers.Reachable.subscribe (QueryVal.num 0) 3 LongPollers.Reachable.init
      (by decide) (by decide) (by decide),
   C7_pool_nodup _ (LongPollers.Reachable.subscribe (QueryVal.num 0) 3
      LongPollers.Reachable.init (by decide) (by decide) (by decide))⟩

/-- States agreeing on the stored latest message agree on the
lastMessageTime getter. -/
theorem lastMessageTime_congr {α : Type} {s t : LongPollers α}
    (h : s._lastMessage = t._lastMessage) :
    s.lastMessageTime = t.lastMessageTime := by
  unfold LongPollers.lastMessageTime
  rw [h]

/-- C8: under a clock that never goes backwards, a broadcast stores the
fresh clock reading, which lastMessageTime then reports, the stored
timestamp never decreases across the broadcast, a freshly constructed
instance reports 0, and neither add nor a disconnect changes the reported
timestamp. -/
theorem C8_timestamp_monotone {α : Type} (s : LongPollers α) (msg : α)
    (now : Nat) (fails : Nat → Bool) (q : QueryVal) (hdl : Nat)
    (hclock : s.lastMessageTime ≤ now) :
    (LongPollers.broadcast s msg now fails).1.lastMessageTime = now ∧
    s.lastMessageTime ≤ (LongPollers.broadcast s msg now fails).1.lastMessageTime ∧
    (⟨[], none, [], []⟩ : LongPollers α).lastMessageTime = 0 ∧
    (LongPollers.add s q hdl).1.lastMessageTime = s.lastMessageTime ∧
    (LongPollers.fireDisconnect s hdl).lastMessageTime = s.lastMessageTime := by
  refine ⟨rfl, ?_, rfl, ?_, ?_⟩
  · exact hclock
  · refine lastMessageTime_congr ?_
    by_cases hq : parseMessageTime q ≠ s.lastMessageTime
    · simp [LongPollers.add, hq]
    · simp [LongPollers.add, hq]
  · refine lastMessageTime_congr ?_
    unfold LongPollers.fireDisconnect
    split
    · rfl
    · rfl

/-- C8 witness at a concrete broadcast with a later clock reading. -/
theorem C8_witness :
    (⟨[], some ⟨2, 50⟩, [], []⟩ : LongPollers Nat).lastMessageTime ≤ 60 ∧
    ((LongPollers.broadcast (⟨[], some ⟨2, 50⟩, [], []⟩ : LongPollers Nat) 4 60
        (fun _ => false)).1.lastMessageTime = 60 ∧
    (⟨[], some ⟨2, 50⟩, [], []⟩ : LongPollers Nat).lastMessageTime ≤
      (LongPollers.broadcast (⟨[], some ⟨2, 50⟩, [], []⟩ : LongPollers Nat) 4 60
        (fun _ => false)).1.lastMessageTime ∧
    (⟨[], none, [], []⟩ : LongPollers Nat).lastMessageTime = 0 ∧
    (LongPollers.add (⟨[], some ⟨2, 50⟩, [], []⟩ : LongPollers Nat)
        (QueryVal.num 50) 9).1.lastMessageTime =
      (⟨[], some ⟨2, 50⟩, [], []⟩ : LongPollers Nat).lastMessageTime ∧
    (LongPollers.fireDisconnect (⟨[], some ⟨2, 50⟩, [], []⟩ : LongPollers Nat)
        9).lastMessageTime =
      (⟨[], some ⟨2, 50⟩, [], []⟩ : LongPollers Nat).lastMessageTime) :=
  ⟨by decide, C8_timestamp_monotone _ 4 60 _ (QueryVal.num 50) 9 (by decide)⟩

/-- C10: broadcast leaves the pool exactly as it was, add never removes a
pool entry, and a disconnect event either leaves the state alone or runs
connectionEnded — so entries leave the pool only through connectionEnded. -/
theorem C10_broadcast_pool_frame {α : Type} (s : LongPollers α) (msg : α)
    (now : Nat) (fails : Nat → Bool) (q : QueryVal) (hdl x : Nat)
    (hx : x ∈ s._responses) :
    (LongPollers.broadcast s msg now fails).1._responses = s._responses ∧
    x ∈ (LongPollers.add s q hdl).1._responses ∧
    (LongPollers.fireDisconnect s hdl = s ∨
      LongPollers.fireDisconnect s hdl = LongPollers.connectionEnded s hdl) := by
  refine ⟨rfl, ?_, ?_⟩
  · by_cases hq : parseMessageTime q ≠ s.lastMessageTime
    · simp [LongPollers.add, hq, hx]
    · simp [LongPollers.add, hq, hx]
  · unfold LongPollers.fireDisconnect
    split
    · exact Or.inr rfl
    · exact Or.inl rfl

/-- C10 witness at a concrete one-client pool. -/
theorem C10_witness :
    4 ∈ (⟨[4], some ⟨1, 10⟩, [4], [4]⟩ : LongPollers Nat)._responses ∧
    ((LongPollers.broadcast (⟨[4], some ⟨1, 10⟩, [4], [4]⟩ : LongPollers Nat) 2 20
        (fun _ => false)).1._responses =
      (⟨[4], some ⟨1, 10⟩, [4], [4]⟩ : LongPollers Nat)._responses ∧
    4 ∈ (LongPollers.add (⟨[4], some ⟨1, 10⟩, [4], [4]⟩ : LongPollers Nat)
        (QueryVal.num 10) 5).1._responses ∧
    (LongPollers.fireDisconnect (⟨[4], some ⟨1, 10⟩, [4], [4]⟩ : LongPollers Nat) 5 =
        (⟨[4], some ⟨1, 10⟩, [4], [4]⟩ : LongPollers Nat) ∨
      LongPollers.fireDisconnect (⟨[4], some ⟨1, 10⟩, [4], [4]⟩ : LongPollers Nat) 5 =
        LongPollers.connectionEnded (⟨[4], some ⟨1, 10⟩, [4], [4]⟩ : LongPollers Nat) 5)) :=
  ⟨by decide, C10_broadcast_pool_frame _ 2 20 _ (QueryVal.num 10) 5 4 (by decide)⟩
